import Mathlib

/-
  Verification development for the StyleGAN2 training-orchestration core
  (model_zoo/model_stylegan2.py).

  Modelling notes.
  * Tensors of float scalars are modelled as exact rationals (lists of ℚ);
    the generator and discriminator networks are external opaque
    differentiable functions per the design document, so the numerical
    values they and autograd produce on a given batch (adversarial losses,
    gradient contributions, per-sample path lengths, the gradient of the
    summed real score w.r.t. the input images) enter the model through a
    per-batch environment record `BatchEnv`.  Everything the orchestration
    core itself computes from those values (the r1 loss reduction, the
    path-length EMA update, the path loss, the weighted backward scalars,
    the cadence gating, gradient-buffer zeroing/accumulation, the loss
    report, the epoch averaging, checkpoint save/load) is translated
    directly from the source.
  * Python `%`, `//` and `/` raise ZeroDivisionError on a zero right
    operand; they are modelled as Option-valued operations (`none` = the
    raised error).  `0.0 ** r` raises for `r < 0`, equals 1 at `r = 0` and
    0 otherwise; `pyPowZeroBase` models it.
  * numpy float division by zero does not raise: it yields NaN/inf with a
    warning.  `npDiv` returns `none` for a zero denominator, so `none`
    stands for an undefined (NaN/inf) float value, not for an error.
  * The optimizer update rule (torch.optim.Adam's internal moment update)
    is external library code; the model is parametric in the update
    function `Upd`.  What the repository decides - which parameter list
    each optimizer owns - is what the model fixes: `optimizer_D` steps
    write only `dParams`, `optimizer_G` steps write only `gParams`.
-/

namespace StyleGAN2

/-- Arithmetic mean of a list, `xs.mean()` on a nonempty tensor. -/
def mean (xs : List ℚ) : ℚ := xs.sum / (xs.length : ℚ)

/-- Python integer `%` (floor-convention modulus); raises on 0. -/
def pymod (a b : Int) : Option Int :=
  if b = 0 then none else some (Int.fmod a b)

/-- Python integer `//` (floor division); raises on 0. -/
def pyfloordiv (a b : Int) : Option Int :=
  if b = 0 then none else some (Int.fdiv a b)

/-- Python `/` on scalars; raises on 0. -/
def pydivQ (a b : ℚ) : Option ℚ :=
  if b = 0 then none else some (a / b)

/-- Python `0.0 ** r`: raises for `r < 0`, is 1 at `r = 0`, else 0. -/
def pyPowZeroBase (r : ℚ) : Option ℚ :=
  if r < 0 then none else some (if r = 0 then 1 else 0)

/-- numpy float division: a zero denominator yields an undefined value
(NaN or inf, no exception), modelled as `none`. -/
def npDiv (x : ℚ) (n : Nat) : Option ℚ :=
  if n = 0 then none else some (x / (n : ℚ))

/-- The constructor arguments of `StyleGAN2.__init__` that feed the
training protocol (lines 27-47 of the source). -/
structure Config where
  batch_size : Int
  lr : ℚ
  r1 : ℚ
  path_regularize : ℚ
  path_batch_shrink : Int
  g_reg_every : Int
  d_reg_every : Int
  mixing : ℚ
deriving DecidableEq

/-- The mutable training state owned by the orchestrator object:
generator/discriminator parameters and gradient buffers, and the
regularization scalars initialized at lines 48-49 and 68-69. -/
structure SG2State where
  cfg : Config
  gParams : List ℚ
  dParams : List ℚ
  gGrads : List ℚ
  dGrads : List ℚ
  r1_loss : ℚ
  path_loss : ℚ
  path_lengths : List ℚ
  mean_path_length : ℚ
deriving DecidableEq

/-- `StyleGAN2.__init__` (lines 27-81): stores the configuration, zeroes
the regularization scalars (`path_lengths` starts as the 0-dim tensor
`0.0`), and computes the Adam regularization ratios and betas; the only
operations that can raise are the two ratio divisions (zero when a
cadence is -1) and `0.0 ** ratio` (for a negative ratio).  The networks
themselves are external, so their parameter lists are inputs. -/
def SG_init (cfg : Config) (gParams dParams : List ℚ) : Option SG2State := do
  let g_frac ← pydivQ (cfg.g_reg_every : ℚ) ((cfg.g_reg_every : ℚ) + 1)
  let d_frac ← pydivQ (cfg.d_reg_every : ℚ) ((cfg.d_reg_every : ℚ) + 1)
  let _beta1G ← pyPowZeroBase g_frac
  let _beta1D ← pyPowZeroBase d_frac
  some { cfg := cfg
         gParams := gParams
         dParams := dParams
         gGrads := List.replicate gParams.length 0
         dGrads := List.replicate dParams.length 0
         r1_loss := 0
         path_loss := 0
         path_lengths := [0]
         mean_path_length := 0 }

/-- `g_reg_ratio = g_reg_every / (g_reg_every + 1)` (line 72). -/
def g_reg_frac (cfg : Config) : Option ℚ :=
  pydivQ (cfg.g_reg_every : ℚ) ((cfg.g_reg_every : ℚ) + 1)

/-- `d_reg_ratio = d_reg_every / (d_reg_every + 1)` (line 73). -/
def d_reg_frac (cfg : Config) : Option ℚ :=
  pydivQ (cfg.d_reg_every : ℚ) ((cfg.d_reg_every : ℚ) + 1)

/-- Learning rate handed to the generator Adam: `lr * g_reg_ratio`
(line 75). -/
def adam_lr_G (cfg : Config) : Option ℚ :=
  (g_reg_frac cfg).map (fun r => cfg.lr * r)

/-- Learning rate handed to the discriminator Adam: `lr * d_reg_ratio`
(line 79). -/
def adam_lr_D (cfg : Config) : Option ℚ :=
  (d_reg_frac cfg).map (fun r => cfg.lr * r)

/-- Betas handed to the generator Adam: `(0 ** r, 0.99 ** r)` with
`r = g_reg_ratio` (lines 76-77), as real powers. -/
noncomputable def adam_betas_G (cfg : Config) : Option (ℝ × ℝ) :=
  (g_reg_frac cfg).map (fun r => (Real.rpow 0 (r : ℝ), Real.rpow (99/100) (r : ℝ)))

/-- Betas handed to the discriminator Adam: `(0 ** r, 0.99 ** r)` with
`r = d_reg_ratio` (lines 80-81), as real powers. -/
noncomputable def adam_betas_D (cfg : Config) : Option (ℝ × ℝ) :=
  (d_reg_frac cfg).map (fun r => (Real.rpow 0 (r : ℝ), Real.rpow (99/100) (r : ℝ)))

/-- Per-batch quantities produced by the external networks and autograd:
the two adversarial loss values, the gradient contributions each backward
pass accumulates into the parameter buffers, the gradient of the summed
real score w.r.t. the (flattened per-sample) input images used by the R1
pass, `real_pred[0]`, the per-sample path lengths of the shrunk batch
(the `sqrt(grad^2.sum(2).mean(1))` of line 164 applied to the generator's
style-code gradient), and `fake_imgs[0,0,0,0]`. -/
structure BatchEnv where
  dAdvLoss : ℚ
  dAdv_dGrad : List ℚ
  dAdv_gGrad : List ℚ
  realPred0 : ℚ
  r1GradReal : List (List ℚ)
  r1_dGrad : List ℚ
  gAdvLoss : ℚ
  gAdv_gGrad : List ℚ
  gAdv_dGrad : List ℚ
  pathLengths : List ℚ
  fakePix00 : ℚ
  path_gGrad : List ℚ
deriving DecidableEq

/-- An optimizer update rule: new parameters from (parameters, gradients).
torch.optim.Adam's internal rule is external library code; the model is
parametric in it. -/
def Upd := List ℚ → List ℚ → List ℚ

/-- Elementwise gradient accumulation (`backward` adds into `.grad`). -/
def zipAdd (a b : List ℚ) : List ℚ := List.zipWith (fun x y => x + y) a b

/-- `r1_loss = grad_real.pow(2).reshape(B, -1).sum(1).mean()` (line 133):
per-sample sum of squared input gradients, averaged over the batch. -/
def r1LossOf (grad_real : List (List ℚ)) : ℚ :=
  mean (grad_real.map (fun g => (g.map (fun x => x ^ 2)).sum))

/-- `backward_D_r1` (lines 126-138): returns the r1 loss together with
the scalar the backward pass is invoked on,
`r1 / 2 * r1_loss * d_reg_every + 0 * real_pred[0]`. -/
def backward_D_r1_val (grad_real : List (List ℚ)) (r1 d_reg_every real_pred_0 : ℚ) :
    ℚ × ℚ :=
  let r1_loss := r1LossOf grad_real
  (r1_loss, r1 / 2 * r1_loss * d_reg_every + 0 * real_pred_0)

/-- `path_batch_size = max(1, batch_size // path_batch_shrink)`
(line 160). -/
def path_batch_size (batch_size path_batch_shrink : Int) : Option Int :=
  (pyfloordiv batch_size path_batch_shrink).map (fun q => max 1 q)

/-- The pure computation of `backward_G_path` (lines 164-176) from the
per-sample path lengths: the EMA update with decay 0.01 (line 166-167),
the path loss (line 168), and the weighted scalar handed to `backward`
including the zero-valued connectivity term added when
`path_batch_shrink` is truthy (lines 172-176).  Returns
(path_loss, path_mean, weighted scalar). -/
def backward_G_path_val (path_lengths : List ℚ) (mean_path_length : ℚ)
    (path_regularize g_reg_every : ℚ) (path_batch_shrink : Int) (fake_pix : ℚ) :
    ℚ × ℚ × ℚ :=
  let decay : ℚ := 1/100
  let path_mean := mean_path_length + decay * (mean path_lengths - mean_path_length)
  let path_loss := mean (path_lengths.map (fun l => (l - path_mean) ^ 2))
  let w := path_regularize * g_reg_every * path_loss
  let w := if path_batch_shrink ≠ 0 then w + 0 * fake_pix else w
  (path_loss, path_mean, w)

/-- Discriminator adversarial phase (lines 187-195):
`optimizer_D.zero_grad()` zeroes only the discriminator buffers, then
`backward_D_adv` accumulates gradient into BOTH networks' buffers - the
fake images are not detached and `requires_grad` (lines 83-85) is never
called, so the graph of `d_adv_loss` reaches the generator's parameters -
then `optimizer_D.step()` rewrites only `dParams`. -/
def dAdvPhase (upd : Upd) (env : BatchEnv) (st : SG2State) : SG2State :=
  let st1 := { st with dGrads := List.replicate st.dGrads.length 0 }
  let st2 := { st1 with dGrads := zipAdd st1.dGrads env.dAdv_dGrad
                        gGrads := zipAdd st1.gGrads env.dAdv_gGrad }
  { st2 with dParams := upd st2.dParams st2.dGrads }

/-- Discriminator R1 phase (lines 199-205): zero the discriminator
buffers, run `backward_D_r1` (storing its returned loss in `r1_loss` and
accumulating into the discriminator buffers only), step `optimizer_D`. -/
def dR1Phase (upd : Upd) (env : BatchEnv) (st : SG2State) : SG2State :=
  let st1 := { st with dGrads := List.replicate st.dGrads.length 0 }
  let rl := backward_D_r1_val env.r1GradReal st.cfg.r1 (st.cfg.d_reg_every : ℚ) env.realPred0
  let st2 := { st1 with dGrads := zipAdd st1.dGrads env.r1_dGrad
                        r1_loss := rl.1 }
  { st2 with dParams := upd st2.dParams st2.dGrads }

/-- Generator adversarial phase (lines 208-215): zero the generator
buffers, `backward_G_adv` accumulates gradient into both networks'
buffers (the discriminator is not frozen either), step `optimizer_G`
(rewriting only `gParams`). -/
def gAdvPhase (upd : Upd) (env : BatchEnv) (st : SG2State) : SG2State :=
  let st1 := { st with gGrads := List.replicate st.gGrads.length 0 }
  let st2 := { st1 with gGrads := zipAdd st1.gGrads env.gAdv_gGrad
                        dGrads := zipAdd st1.dGrads env.gAdv_dGrad }
  { st2 with gParams := upd st2.gParams st2.gGrads }

/-- Generator path-regularization phase (lines 219-230): zero the
generator buffers, run `backward_G_path` and store its three results in
`path_loss`, `mean_path_length`, `path_lengths` (line 220), accumulate
into the generator buffers, step `optimizer_G`. -/
def gPathPhase (upd : Upd) (env : BatchEnv) (st : SG2State) : SG2State :=
  let st1 := { st with gGrads := List.replicate st.gGrads.length 0 }
  let r := backward_G_path_val env.pathLengths st.mean_path_length
            st.cfg.path_regularize (st.cfg.g_reg_every : ℚ) st.cfg.path_batch_shrink
            env.fakePix00
  let st2 := { st1 with gGrads := zipAdd st1.gGrads env.path_gGrad
                        path_loss := r.1
                        mean_path_length := r.2.1
                        path_lengths := env.pathLengths }
  { st2 with gParams := upd st2.gParams st2.gGrads }

/-- The 6-entry loss report assembled at lines 234-239:
`[d_adv_loss, r1_loss, g_adv_loss, path_loss, path_lengths.mean(),
mean_path_length]`, reading the possibly-stale stored scalars. -/
def report (env : BatchEnv) (st : SG2State) : List ℚ :=
  [env.dAdvLoss, st.r1_loss, env.gAdvLoss, st.path_loss,
   mean st.path_lengths, st.mean_path_length]

/-- `StyleGAN2.optimize` (lines 183-241): the four strictly ordered
phases, with the two regularization phases gated on
`batch_idx % *_reg_every == 0` (Python `%` raises on a zero cadence). -/
def optimize (upd : Upd) (st : SG2State) (batch_idx : Int) (env : BatchEnv) :
    Option (SG2State × List ℚ) := do
  let st1 := dAdvPhase upd env st
  let md ← pymod batch_idx st.cfg.d_reg_every
  let st2 := if md = 0 then dR1Phase upd env st1 else st1
  let st3 := gAdvPhase upd env st2
  let mg ← pymod batch_idx st.cfg.g_reg_every
  let st4 := if mg = 0 then gPathPhase upd env st3 else st3
  some (st4, report env st4)

/-- The state reached by a successful `optimize` call (the same phase
composition without the Option plumbing). -/
def optimizeRun (upd : Upd) (st : SG2State) (batch_idx : Int) (env : BatchEnv) :
    SG2State :=
  let st1 := dAdvPhase upd env st
  let st2 := if Int.fmod batch_idx st.cfg.d_reg_every = 0 then dR1Phase upd env st1 else st1
  let st3 := gAdvPhase upd env st2
  if Int.fmod batch_idx st.cfg.g_reg_every = 0 then gPathPhase upd env st3 else st3

/-- The accumulation loop of `StyleGAN2.train` (lines 244-260):
`running_loss += optimize(batch_idx, data)` over the enumerated data
source. -/
def trainLoop (upd : Upd) : SG2State → Int → List BatchEnv → List ℚ →
    Option (SG2State × List ℚ)
  | st, _, [], acc => some (st, acc)
  | st, idx, env :: rest, acc =>
    match optimize upd st idx env with
    | none => none
    | some (st', rep) => trainLoop upd st' (idx + 1) rest (zipAdd acc rep)

/-- `StyleGAN2.train` (lines 243-268): run the loop from batch index 0
with a zero running loss, then `running_loss /= len(data_loader)`
elementwise with numpy division semantics. -/
def train (upd : Upd) (st : SG2State) (envs : List BatchEnv) :
    Option (List (Option ℚ)) :=
  match trainLoop upd st 0 envs (List.replicate 6 0) with
  | none => none
  | some (_, acc) => some (acc.map (fun x => npDiv x envs.length))

/-- What `StyleGAN2.save` (lines 270-291) writes at an epoch label: the
two networks' state dicts, and nothing else. -/
structure Checkpoint where
  gState : List ℚ
  dState : List ℚ
deriving DecidableEq

/-- `save` (line 289-291): serializes exactly the generator and
discriminator parameter sets. -/
def saveCkpt (st : SG2State) : Checkpoint :=
  { gState := st.gParams, dState := st.dParams }

/-- `load` (lines 293-295): `load_state_dict` overwrites exactly the two
networks' parameters of the receiving object; optimizer states and the
regularization scalars are untouched. -/
def loadCkpt (c : Checkpoint) (st : SG2State) : SG2State :=
  { st with gParams := c.gState, dParams := c.dState }

/-
  Computation-graph dependency model for the gradient-flow claims.
  A backward pass accumulates gradient into a leaf variable exactly when
  the loss expression's autograd graph reaches that leaf (a `detach`
  blocks the graph).  The generator and discriminator are opaque
  differentiable functions of their parameters and inputs, per the
  external-interface contracts of the design document.
-/

/-- Gradient leaves of the training step. -/
inductive GVar
  | gParam
  | dParam
  | noiseLatent
  | realImgs
deriving DecidableEq

/-- Loss-expression skeleton: exactly the operations appearing in
`backward_D_adv` (lines 105-124). -/
inductive GExpr
  | var : GVar → GExpr
  | add : GExpr → GExpr → GExpr
  | neg : GExpr → GExpr
  | softplus : GExpr → GExpr
  | meanE : GExpr → GExpr
  | gen : GExpr → GExpr
  | disc : GExpr → GExpr
  | detach : GExpr → GExpr

/-- Whether the autograd graph of an expression reaches a leaf: `gen x`
depends on the generator parameters and on whatever `x` depends on,
`disc x` likewise for the discriminator, `detach` blocks everything. -/
def dependsOn : GExpr → GVar → Bool
  | .var w, v => w = v
  | .add a b, v => dependsOn a v || dependsOn b v
  | .neg a, v => dependsOn a v
  | .softplus a, v => dependsOn a v
  | .meanE a, v => dependsOn a v
  | .gen a, v => v = GVar.gParam || dependsOn a v
  | .disc a, v => v = GVar.dParam || dependsOn a v
  | .detach _, _ => false

/-- `fake_imgs = self.G(noise)` (line 110): not detached. -/
def fake_imgs_expr : GExpr := GExpr.gen (GExpr.var GVar.noiseLatent)

/-- `fake_pred = self.D(fake_imgs)` (line 113). -/
def fake_pred_expr : GExpr := GExpr.disc fake_imgs_expr

/-- `real_pred = self.D(real_imgs)` (line 114). -/
def real_pred_expr : GExpr := GExpr.disc (GExpr.var GVar.realImgs)

/-- `d_adv_loss = softplus(-real_pred).mean() + softplus(fake_pred).mean()`
(lines 117-119), the scalar `backward_D_adv` backpropagates (line 122). -/
def d_adv_loss_expr : GExpr :=
  GExpr.add (GExpr.meanE (GExpr.softplus (GExpr.neg real_pred_expr)))
            (GExpr.meanE (GExpr.softplus fake_pred_expr))

/-
  Concrete instances used by the witnesses below.
-/

/-- A concrete configuration with the repository's default cadences. -/
def cfgW : Config :=
  { batch_size := 16, lr := 1/1000, r1 := 10, path_regularize := 2,
    path_batch_shrink := 2, g_reg_every := 4, d_reg_every := 16, mixing := 9/10 }

/-- The identity update rule (parameters unchanged by a step). -/
def updId : Upd := fun p _ => p

/-- A concrete mid-training state. -/
def stW : SG2State :=
  { cfg := cfgW, gParams := [], dParams := [], gGrads := [], dGrads := [],
    r1_loss := 3, path_loss := 4, path_lengths := [2], mean_path_length := 5 }

/-- A concrete per-batch environment. -/
def envW : BatchEnv :=
  { dAdvLoss := 0, dAdv_dGrad := [], dAdv_gGrad := [], realPred0 := 0,
    r1GradReal := [[1], [3]], r1_dGrad := [], gAdvLoss := 0, gAdv_gGrad := [],
    gAdv_dGrad := [], pathLengths := [2], fakePix00 := 0, path_gGrad := [] }

/-- The state `optimize updId stW 0 envW` reaches (both cadences fire at
batch index 0). -/
def stC1x : SG2State :=
  { cfg := cfgW, gParams := [], dParams := [], gGrads := [], dGrads := [],
    r1_loss := 5, path_loss := 88209/10000, path_lengths := [2],
    mean_path_length := 497/100 }

/-- The loss report of `optimize updId stW 0 envW`. -/
def repC1x : List ℚ := [0, 5, 0, 88209/10000, 2, 497/100]

/-- The loss report of `optimize updId stW 1 envW` (no regularizer fires
at batch index 1, so the stale stored scalars are reported). -/
def repC2x : List ℚ := [0, 3, 0, 4, 2, 5]

/-- A configuration the spec calls invalid: zero discriminator cadence
and zero batch size. -/
def cfg0 : Config :=
  { batch_size := 0, lr := 1/1000, r1 := 10, path_regularize := 2,
    path_batch_shrink := 2, g_reg_every := 4, d_reg_every := 0, mixing := 9/10 }

/-- The state `SG_init cfg0 [] []` successfully constructs. -/
def st0 : SG2State :=
  { cfg := cfg0, gParams := [], dParams := [], gGrads := [], dGrads := [],
    r1_loss := 0, path_loss := 0, path_lengths := [0], mean_path_length := 0 }

/-- A freshly initialized state into which a checkpoint is loaded. -/
def stFresh : SG2State :=
  { cfg := cfgW, gParams := [0], dParams := [0], gGrads := [0], dGrads := [0],
    r1_loss := 0, path_loss := 0, path_lengths := [0], mean_path_length := 0 }

/-
  Helper lemmas shared by the claim theorems.
-/

/-- When both cadences are nonzero, `optimize` succeeds and returns the
phase composition `optimizeRun` together with its report. -/
theorem optimize_eq_of_ne (upd : Upd) (st : SG2State) (batch_idx : Int) (env : BatchEnv)
    (hd : st.cfg.d_reg_every ≠ 0) (hg : st.cfg.g_reg_every ≠ 0) :
    optimize upd st batch_idx env
      = some (optimizeRun upd st batch_idx env,
              report env (optimizeRun upd st batch_idx env)) := by
  simp [optimize, optimizeRun, pymod, hd, hg]

/-- A successful `optimize` call forces both cadences nonzero and its
result is the phase composition. -/
theorem optimize_some_cases (upd : Upd) (st : SG2State) (batch_idx : Int) (env : BatchEnv)
    (p : SG2State × List ℚ) (h : optimize upd st batch_idx env = some p) :
    st.cfg.d_reg_every ≠ 0 ∧ st.cfg.g_reg_every ≠ 0 ∧
    p = (optimizeRun upd st batch_idx env,
         report env (optimizeRun upd st batch_idx env)) := by
  by_cases hd : st.cfg.d_reg_every = 0
  · simp [optimize, pymod, hd] at h
  · by_cases hg : st.cfg.g_reg_every = 0
    · simp [optimize, pymod, hd, hg] at h
    · refine ⟨hd, hg, ?_⟩
      rw [optimize_eq_of_ne upd st batch_idx env hd hg] at h
      exact (Option.some.inj h).symm

/-- The path phase stores the EMA update of the mean path length. -/
theorem gPathPhase_mpl (upd : Upd) (env : BatchEnv) (s : SG2State) :
    (gPathPhase upd env s).mean_path_length
      = s.mean_path_length + 1/100 * (mean env.pathLengths - s.mean_path_length) := rfl

/-
  Claim theorems.
-/

/-- Claim C9: an optimizer step restricted to the discriminator's
parameter list (the step closing the adversarial and R1 discriminator
phases) leaves every generator parameter identical, and the generator
phases' steps leave every discriminator parameter identical. -/
theorem C9_optimizer_step_frame (upd : Upd) (env : BatchEnv) (st : SG2State) :
    (dAdvPhase upd env st).gParams = st.gParams ∧
    (dR1Phase upd env st).gParams = st.gParams ∧
    (gAdvPhase upd env st).dParams = st.dParams ∧
    (gPathPhase upd env st).dParams = st.dParams :=
  ⟨rfl, rfl, rfl, rfl⟩

/-- Claim C3 (code bug): the autograd graph of `d_adv_loss` in
`backward_D_adv` reaches the generator's parameters, because
`fake_imgs = G(noise)` is never detached and the `requires_grad` helper
of lines 83-85 is never called; so `d_adv_loss.backward()` accumulates
gradient into the generator's buffers, contrary to the claim.  Detaching
the fake images would have blocked the flow (third conjunct). -/
theorem C3_d_adv_backward_reaches_generator :
    dependsOn d_adv_loss_expr GVar.gParam = true ∧
    dependsOn fake_imgs_expr GVar.gParam = true ∧
    dependsOn (GExpr.detach fake_imgs_expr) GVar.gParam = false := by
  decide

/-- Claim C6, counterexample: a save/load round-trip into a fresh state
does not restore the path-regularization scalars, so TrainingState is
not persisted wholesale. -/
theorem C6_counterexample :
    (loadCkpt (saveCkpt stW) stFresh).mean_path_length ≠ stW.mean_path_length ∧
    (loadCkpt (saveCkpt stW) stFresh).r1_loss ≠ stW.r1_loss ∧
    (loadCkpt (saveCkpt stW) stFresh).path_loss ≠ stW.path_loss := by
  decide

/-- Claim C6, amended: `save`/`load` persists and restores exactly the
generator and discriminator parameter sets; the stored regularization
scalars of the receiving state are untouched. -/
theorem C6_save_load_networks_only (st stf : SG2State) :
    (loadCkpt (saveCkpt st) stf).gParams = st.gParams ∧
    (loadCkpt (saveCkpt st) stf).dParams = st.dParams ∧
    (loadCkpt (saveCkpt st) stf).r1_loss = stf.r1_loss ∧
    (loadCkpt (saveCkpt st) stf).path_loss = stf.path_loss ∧
    (loadCkpt (saveCkpt st) stf).path_lengths = stf.path_lengths ∧
    (loadCkpt (saveCkpt st) stf).mean_path_length = stf.mean_path_length :=
  ⟨rfl, rfl, rfl, rfl, rfl, rfl⟩

/-- Claim C8, counterexample: on an empty data source `train` does not
fail - it returns a report whose six entries are all undefined values
(`none` models numpy's NaN from the 0/0 division). -/
theorem C8_counterexample :
    train updId stW [] ≠ none ∧
    train updId stW [] = some (List.replicate 6 none) := by
  decide

/-- Claim C8, amended: for every state and update rule, `train` on an
empty data source returns normally with the epoch average computed as
0/0 elementwise, i.e. a report of six undefined (NaN) entries, instead
of failing fast. -/
theorem C8_empty_source_returns_nan (upd : Upd) (st : SG2State) :
    train upd st [] = some (List.replicate 6 none) := rfl

/-- Claim C5: the path-regularization pass shrinks the batch to
`max(1, batch_size // path_batch_shrink)`; in particular 16 with shrink
2 gives 8 and 16 with shrink 32 gives the floor value 1, and the result
is always at least 1. -/
theorem C5_path_batch_size_floor (b s : Int) (_hb : 1 ≤ b) (hs : 1 ≤ s) :
    path_batch_size b s = some (max 1 (Int.fdiv b s)) ∧
    (∀ v, path_batch_size b s = some v → 1 ≤ v) ∧
    path_batch_size 16 2 = some 8 ∧
    path_batch_size 16 32 = some 1 := by
  have hs0 : s ≠ 0 := by omega
  refine ⟨by simp [path_batch_size, pyfloordiv, hs0], ?_, by decide, by decide⟩
  intro v hv
  simp [path_batch_size, pyfloordiv, hs0] at hv
  omega

/-- Witness for C5 at batch size 16 and shrink 2. -/
theorem C5_witness :
    path_batch_size 16 2 = some (max 1 (Int.fdiv 16 2)) ∧
    path_batch_size 16 32 = some 1 ∧
    path_batch_size 16 2 = some 8 := by
  have h := C5_path_batch_size_floor 16 2 (by decide) (by decide)
  exact ⟨h.1, h.2.2.2, h.2.2.1⟩

/-- Claim C1: when the path-regularization pass fires (the batch index
is divisible by the generator cadence), the stored `mean_path_length`
after `optimize` is exactly the convex combination
`0.99 * prior + 0.01 * mean(path_lengths)`, and the reported sixth entry
is that stored value. -/
theorem C1_mean_path_length_convex_update (upd : Upd) (st : SG2State) (batch_idx : Int)
    (env : BatchEnv) (st' : SG2State) (rep : List ℚ)
    (h : optimize upd st batch_idx env = some (st', rep))
    (hfire : Int.fmod batch_idx st.cfg.g_reg_every = 0) :
    st'.mean_path_length
        = 99/100 * st.mean_path_length + 1/100 * mean env.pathLengths ∧
    rep[5]? = some st'.mean_path_length := by
  obtain ⟨hd, hg, hp⟩ := optimize_some_cases upd st batch_idx env (st', rep) h
  obtain ⟨hst, hrep⟩ := Prod.mk.injEq .. ▸ hp
  subst hst hrep
  constructor
  · show (optimizeRun upd st batch_idx env).mean_path_length = _
    by_cases hmd : Int.fmod batch_idx st.cfg.d_reg_every = 0 <;>
      simp [optimizeRun, hmd, hfire, gPathPhase_mpl, gAdvPhase, dR1Phase,
        dAdvPhase] <;>
      ring
  · rfl

/-- Witness for C1 at batch index 0 with prior mean 5 and path lengths
[2]: the stored mean becomes 4.97 = 0.99 * 5 + 0.01 * 2. -/
theorem C1_witness :
    stC1x.mean_path_length
        = 99/100 * stW.mean_path_length + 1/100 * mean envW.pathLengths ∧
    repC1x[5]? = some stC1x.mean_path_length := by
  have hm16 : Int.fmod 0 (16:Int) = 0 := by decide
  have hm4 : Int.fmod 0 (4:Int) = 0 := by decide
  have h : optimize updId stW 0 envW = some (stC1x, repC1x) := by
    norm_num [optimize, pymod, dAdvPhase, dR1Phase, gAdvPhase, gPathPhase,
      backward_D_r1_val, backward_G_path_val, r1LossOf, mean, report, zipAdd,
      updId, stW, envW, cfgW, stC1x, repC1x, hm16, hm4]
  exact C1_mean_path_length_convex_update updId stW 0 envW stC1x repC1x h (by decide)

/-- Claim C2: on a batch where the discriminator cadence does not fire,
the stored `r1_loss` is unchanged and the report's second entry is that
stale value; likewise, when the generator cadence does not fire, the
stored `path_loss`, `path_lengths` and `mean_path_length` are unchanged
and the stale values fill the report's fourth, fifth and sixth
entries. -/
theorem C2_stale_reuse (upd : Upd) (st : SG2State) (batch_idx : Int) (env : BatchEnv)
    (st' : SG2State) (rep : List ℚ)
    (h : optimize upd st batch_idx env = some (st', rep)) :
    (Int.fmod batch_idx st.cfg.d_reg_every ≠ 0 →
        st'.r1_loss = st.r1_loss ∧ rep[1]? = some st.r1_loss) ∧
    (Int.fmod batch_idx st.cfg.g_reg_every ≠ 0 →
        st'.path_loss = st.path_loss ∧ st'.path_lengths = st.path_lengths ∧
        st'.mean_path_length = st.mean_path_length ∧
        rep[3]? = some st.path_loss ∧
        rep[4]? = some (mean st.path_lengths) ∧
        rep[5]? = some st.mean_path_length) := by
  obtain ⟨hd, hg, hp⟩ := optimize_some_cases upd st batch_idx env (st', rep) h
  obtain ⟨hst, hrep⟩ := Prod.mk.injEq .. ▸ hp
  subst hst hrep
  constructor
  · intro hmd
    have hr1 : (optimizeRun upd st batch_idx env).r1_loss = st.r1_loss := by
      rw [optimizeRun]
      simp only [hmd, if_neg, if_false]
      by_cases hmg : Int.fmod batch_idx st.cfg.g_reg_every = 0 <;>
        simp [hmg, gPathPhase, gAdvPhase, dAdvPhase]
    exact ⟨hr1, by show some (optimizeRun upd st batch_idx env).r1_loss = _; rw [hr1]⟩
  · intro hmg
    have hstale : (optimizeRun upd st batch_idx env).path_loss = st.path_loss ∧
        (optimizeRun upd st batch_idx env).path_lengths = st.path_lengths ∧
        (optimizeRun upd st batch_idx env).mean_path_length = st.mean_path_length := by
      rw [optimizeRun]
      simp only [hmg, if_neg, if_false]
      by_cases hmd : Int.fmod batch_idx st.cfg.d_reg_every = 0 <;>
        simp [hmd, gAdvPhase, dR1Phase, dAdvPhase]
    refine ⟨hstale.1, hstale.2.1, hstale.2.2, ?_, ?_, ?_⟩
    · show some (optimizeRun upd st batch_idx env).path_loss = _
      rw [hstale.1]
    · show some (mean (optimizeRun upd st batch_idx env).path_lengths) = _
      rw [hstale.2.1]
    · show some (optimizeRun upd st batch_idx env).mean_path_length = _
      rw [hstale.2.2]

/-- Witness for C2 at batch index 1 (neither cadence fires with
d_reg_every 16 and g_reg_every 4): the stale stored scalars 3, 4, [2], 5
are reported unchanged. -/
theorem C2_witness :
    (stW.r1_loss = stW.r1_loss ∧ repC2x[1]? = some stW.r1_loss) ∧
    (stW.path_loss = stW.path_loss ∧ stW.path_lengths = stW.path_lengths ∧
     stW.mean_path_length = stW.mean_path_length ∧
     repC2x[3]? = some stW.path_loss ∧
     repC2x[4]? = some (mean stW.path_lengths) ∧
     repC2x[5]? = some stW.mean_path_length) := by
  have hm16 : Int.fmod 1 (16:Int) = 1 := by decide
  have hm4 : Int.fmod 1 (4:Int) = 1 := by decide
  have h0 : optimize updId stW 1 envW = some (stW, repC2x) := by
    norm_num [optimize, pymod, dAdvPhase, dR1Phase, gAdvPhase, gPathPhase,
      backward_D_r1_val, backward_G_path_val, r1LossOf, mean, report, zipAdd,
      updId, stW, envW, cfgW, repC2x, hm16, hm4]
  have h := C2_stale_reuse updId stW 1 envW stW repC2x h0
  exact ⟨h.1 (by decide), h.2 (by decide)⟩

/-- Claim C4: the scalar backpropagated by `backward_D_r1` equals
`r1/2 * r1_loss * d_reg_every` (the `+ 0 * real_pred[0]` connectivity
term contributes nothing), where `r1LossOf` is the batch mean of the
per-sample sums of squared input gradients; and in `optimize` the stored
`r1_loss` is recomputed exactly when `batch_idx % d_reg_every == 0` and
kept otherwise. -/
theorem C4_r1_cadence_and_loss (upd : Upd) (st : SG2State) (batch_idx : Int)
    (env : BatchEnv) (st' : SG2State) (rep : List ℚ)
    (h : optimize upd st batch_idx env = some (st', rep)) :
    (backward_D_r1_val env.r1GradReal st.cfg.r1 (st.cfg.d_reg_every : ℚ)
        env.realPred0).2
      = st.cfg.r1 / 2 * r1LossOf env.r1GradReal * (st.cfg.d_reg_every : ℚ) ∧
    (Int.fmod batch_idx st.cfg.d_reg_every = 0 →
        st'.r1_loss = r1LossOf env.r1GradReal) ∧
    (Int.fmod batch_idx st.cfg.d_reg_every ≠ 0 → st'.r1_loss = st.r1_loss) := by
  obtain ⟨hd, hg, hp⟩ := optimize_some_cases upd st batch_idx env (st', rep) h
  obtain ⟨hst, hrep⟩ := Prod.mk.injEq .. ▸ hp
  subst hst hrep
  refine ⟨by rw [backward_D_r1_val]; ring, ?_, ?_⟩
  · intro hmd
    show (optimizeRun upd st batch_idx env).r1_loss = _
    rw [optimizeRun]
    simp only [hmd, if_pos]
    by_cases hmg : Int.fmod batch_idx st.cfg.g_reg_every = 0 <;>
      simp [hmg, gPathPhase, gAdvPhase, dR1Phase, backward_D_r1_val]
  · intro hmd
    show (optimizeRun upd st batch_idx env).r1_loss = _
    rw [optimizeRun]
    simp only [hmd, if_neg, if_false]
    by_cases hmg : Int.fmod batch_idx st.cfg.g_reg_every = 0 <;>
      simp [hmg, gPathPhase, gAdvPhase, dAdvPhase]

/-- Witness for C4 at batch index 0 with input gradients [[1],[3]]:
the r1 loss is (1 + 9)/2 = 5 and it is stored on the firing batch. -/
theorem C4_witness :
    (backward_D_r1_val envW.r1GradReal stW.cfg.r1 (stW.cfg.d_reg_every : ℚ)
        envW.realPred0).2
      = stW.cfg.r1 / 2 * r1LossOf envW.r1GradReal * (stW.cfg.d_reg_every : ℚ) ∧
    stC1x.r1_loss = r1LossOf envW.r1GradReal := by
  have hm16 : Int.fmod 0 (16:Int) = 0 := by decide
  have hm4 : Int.fmod 0 (4:Int) = 0 := by decide
  have h0 : optimize updId stW 0 envW = some (stC1x, repC1x) := by
    norm_num [optimize, pymod, dAdvPhase, dR1Phase, gAdvPhase, gPathPhase,
      backward_D_r1_val, backward_G_path_val, r1LossOf, mean, report, zipAdd,
      updId, stW, envW, cfgW, stC1x, repC1x, hm16, hm4]
  have h := C4_r1_cadence_and_loss updId stW 0 envW stC1x repC1x h0
  exact ⟨h.1, h.2.1 (by decide)⟩

/-- Claim C7, counterexample: a configuration with a zero discriminator
cadence and a zero batch size - invalid per the claim - is accepted by
construction, which returns a state rather than failing. -/
theorem C7_counterexample :
    cfg0.d_reg_every = 0 ∧ cfg0.batch_size = 0 ∧
    (SG_init cfg0 [] []).isSome = true := by
  refine ⟨rfl, rfl, ?_⟩
  norm_num [SG_init, pydivQ, pyPowZeroBase, cfg0, Option.isSome]

/-- Claim C7, amended: construction performs no validation - a zero
cadence or a nonpositive batch size is accepted (construction can fail
only through the ratio division, i.e. for a cadence of exactly -1) - and
a zero discriminator cadence instead surfaces as a modulo-by-zero error
at the first `optimize` call. -/
theorem C7_no_validation_at_construction (cfg : Config) (gP dP : List ℚ)
    (st : SG2State) (upd : Upd) (batch_idx : Int) (env : BatchEnv)
    (hd0 : cfg.d_reg_every = 0) (hg : 0 ≤ cfg.g_reg_every)
    (hst : SG_init cfg gP dP = some st) :
    (SG_init cfg gP dP).isSome = true ∧ optimize upd st batch_idx env = none := by
  have hgq : (0:ℚ) ≤ (cfg.g_reg_every : ℚ) := by exact_mod_cast hg
  have hgpos : (0:ℚ) < (cfg.g_reg_every : ℚ) + 1 := by linarith
  have hg1 : ((cfg.g_reg_every : ℚ) + 1) ≠ 0 := ne_of_gt hgpos
  have hfrac : (0:ℚ) ≤ (cfg.g_reg_every : ℚ) / ((cfg.g_reg_every : ℚ) + 1) :=
    div_nonneg hgq (le_of_lt hgpos)
  have hsome : SG_init cfg gP dP = some
      { cfg := cfg, gParams := gP, dParams := dP,
        gGrads := List.replicate gP.length 0,
        dGrads := List.replicate dP.length 0,
        r1_loss := 0, path_loss := 0, path_lengths := [0],
        mean_path_length := 0 } := by
    simp [SG_init, pydivQ, pyPowZeroBase, hd0, hg1, not_lt.mpr hfrac]
  rw [hsome] at hst
  obtain rfl := (Option.some.inj hst)
  constructor
  · rw [hsome]; rfl
  · simp [optimize, pymod, hd0]

/-- Witness for C7: the concrete invalid configuration `cfg0`
(discriminator cadence 0, batch size 0) constructs successfully into
`st0`, and the first `optimize` call on `st0` fails. -/
theorem C7_witness :
    (SG_init cfg0 [] []).isSome = true ∧ optimize updId st0 0 envW = none := by
  have hst : SG_init cfg0 [] [] = some st0 := by
    norm_num [SG_init, pydivQ, pyPowZeroBase, cfg0, st0]
  exact C7_no_validation_at_construction cfg0 [] [] st0 updId 0 envW rfl
    (by decide) hst

/-- Claim C10: at construction the generator optimizer learning rate is
`lr * g_reg_every/(g_reg_every+1)` with betas `(0^r, 0.99^r)` for
`r = g_reg_every/(g_reg_every+1)`, the discriminator optimizer is the
analogous Adam scaled by `d_reg_every/(d_reg_every+1)`, and the
configured learning rate is never used unscaled: the scaled rate is
strictly below `lr` whenever `lr` is positive. -/
theorem C10_adam_cadence_scaling (cfg : Config)
    (hg : 1 ≤ cfg.g_reg_every) (hd : 1 ≤ cfg.d_reg_every) (hlr : 0 < cfg.lr) :
    adam_lr_G cfg
        = some (cfg.lr * ((cfg.g_reg_every : ℚ) / ((cfg.g_reg_every : ℚ) + 1))) ∧
    adam_lr_D cfg
        = some (cfg.lr * ((cfg.d_reg_every : ℚ) / ((cfg.d_reg_every : ℚ) + 1))) ∧
    (∀ x, adam_lr_G cfg = some x → x < cfg.lr) ∧
    (∀ x, adam_lr_D cfg = some x → x < cfg.lr) ∧
    adam_betas_G cfg = some (0, ((99/100 : ℝ) : ℝ) ^
        ((((cfg.g_reg_every : ℚ) / ((cfg.g_reg_every : ℚ) + 1) : ℚ)) : ℝ)) ∧
    adam_betas_D cfg = some (0, ((99/100 : ℝ) : ℝ) ^
        ((((cfg.d_reg_every : ℚ) / ((cfg.d_reg_every : ℚ) + 1) : ℚ)) : ℝ)) := by
  have hgq : (1:ℚ) ≤ (cfg.g_reg_every : ℚ) := by exact_mod_cast hg
  have hdq : (1:ℚ) ≤ (cfg.d_reg_every : ℚ) := by exact_mod_cast hd
  have hgpos : (0:ℚ) < (cfg.g_reg_every : ℚ) + 1 := by linarith
  have hdpos : (0:ℚ) < (cfg.d_reg_every : ℚ) + 1 := by linarith
  have hgne : ((cfg.g_reg_every : ℚ) + 1) ≠ 0 := ne_of_gt hgpos
  have hdne : ((cfg.d_reg_every : ℚ) + 1) ≠ 0 := ne_of_gt hdpos
  have hglt : (cfg.g_reg_every : ℚ) / ((cfg.g_reg_every : ℚ) + 1) < 1 :=
    (div_lt_one hgpos).mpr (by linarith)
  have hdlt : (cfg.d_reg_every : ℚ) / ((cfg.d_reg_every : ℚ) + 1) < 1 :=
    (div_lt_one hdpos).mpr (by linarith)
  have hgfpos : (0:ℚ) < (cfg.g_reg_every : ℚ) / ((cfg.g_reg_every : ℚ) + 1) :=
    div_pos (by linarith) hgpos
  have hdfpos : (0:ℚ) < (cfg.d_reg_every : ℚ) / ((cfg.d_reg_every : ℚ) + 1) :=
    div_pos (by linarith) hdpos
  have hG : adam_lr_G cfg
      = some (cfg.lr * ((cfg.g_reg_every : ℚ) / ((cfg.g_reg_every : ℚ) + 1))) := by
    simp [adam_lr_G, g_reg_frac, pydivQ, hgne]
  have hD : adam_lr_D cfg
      = some (cfg.lr * ((cfg.d_reg_every : ℚ) / ((cfg.d_reg_every : ℚ) + 1))) := by
    simp [adam_lr_D, d_reg_frac, pydivQ, hdne]
  refine ⟨hG, hD, ?_, ?_, ?_, ?_⟩
  · intro x hx
    rw [hG] at hx
    obtain rfl := Option.some.inj hx
    exact mul_lt_of_lt_one_right hlr hglt
  · intro x hx
    rw [hD] at hx
    obtain rfl := Option.some.inj hx
    exact mul_lt_of_lt_one_right hlr hdlt
  · simp [adam_betas_G, g_reg_frac, pydivQ, hgne]
    refine Real.zero_rpow (ne_of_gt ?_)
    exact_mod_cast hgfpos
  · simp [adam_betas_D, d_reg_frac, pydivQ, hdne]
    refine Real.zero_rpow (ne_of_gt ?_)
    exact_mod_cast hdfpos

/-- Witness for C10 with the default cadences 4 and 16 and lr = 0.001:
the generator step size is 1/1000 * 4/5 = 1/1250 and the discriminator
step size is 1/1000 * 16/17 = 2/2125, both strictly below 1/1000. -/
theorem C10_witness :
    adam_lr_G cfgW = some (1/1250) ∧ adam_lr_D cfgW = some (2/2125) ∧
    (1/1250 : ℚ) < cfgW.lr ∧ (2/2125 : ℚ) < cfgW.lr := by
  have h := C10_adam_cadence_scaling cfgW (by decide) (by decide)
    (by norm_num [cfgW])
  have h1 : adam_lr_G cfgW = some (1/1250) := by
    rw [h.1]; norm_num [cfgW]
  have h2 : adam_lr_D cfgW = some (2/2125) := by
    rw [h.2.1]; norm_num [cfgW]
  exact ⟨h1, h2, h.2.2.1 _ h1, h.2.2.2.1 _ h2⟩

end StyleGAN2
